import Mathlib

/-!
Shallow embedding of the bjsonrpc connection engine
(src/bjsonrpc/connection.py and src/bjsonrpc/proxies.py), together with
theorems settling the frozen claims about its dispatcher, proxy encoding,
and serialization hooks.
-/

namespace BJsonRpc

/-- JSON values as handed to the connection by the codec. -/
inductive JVal where
  | null
  | bool (b : Bool)
  | num (n : Int)
  | str (s : String)
  | arr (elems : List JVal)
  | obj (fields : List (String × JVal))

/-- First-match lookup in an association list; models Python `d[k]` / `k in d`
for dictionaries (whose keys are unique). -/
def dlookup {κ α : Type} [DecidableEq κ] : List (κ × α) → κ → Option α
  | [], _ => none
  | (k, v) :: t, k0 => if k = k0 then some v else dlookup t k0

/-- Models Python `d[k] = v`: replace the value at an existing key in place,
otherwise append the new binding at the end (dict insertion order). -/
def dinsert {κ α : Type} [DecidableEq κ] : List (κ × α) → κ → α → List (κ × α)
  | [], k0, v0 => [(k0, v0)]
  | (k, v) :: t, k0, v0 =>
      if k = k0 then (k, v0) :: t else (k, v) :: dinsert t k0 v0

/-- Models Python `del d[k]`: removes the (unique) binding at key `k`. -/
def derase {κ α : Type} [DecidableEq κ] : List (κ × α) → κ → List (κ × α)
  | [], _ => []
  | (k, v) :: t, k0 => if k = k0 then t else (k, v) :: derase t k0

theorem dlookup_dinsert_self {κ α : Type} [DecidableEq κ]
    (l : List (κ × α)) (k : κ) (v : α) : dlookup (dinsert l k v) k = some v := by
  induction l with
  | nil => simp [dinsert, dlookup]
  | cons h t ih =>
      obtain ⟨k1, v1⟩ := h
      by_cases hk : k1 = k
      · simp [dinsert, dlookup, hk]
      · simp [dinsert, dlookup, hk, ih]

/-- Splits a character list at every occurrence of `c`; the pieces do not
contain `c`.  Mirrors Python `str.split` with a single-character separator. -/
def splitCharsOn (c : Char) : List Char → List (List Char)
  | [] => [[]]
  | x :: xs =>
      match splitCharsOn c xs, decEq x c with
      | r, isTrue _ => [] :: r
      | [], isFalse _ => [[x]]
      | y :: ys, isFalse _ => (x :: y) :: ys

/-- Python `s.split(".")` (connection.py line 461 uses this form). -/
def pySplitDot (s : String) : List String :=
  (splitCharsOn '.' s.data).map (fun l => ⟨l⟩)

/-- Python `"." in s` (connection.py line 460). -/
def pyContainsDot (s : String) : Bool := s.data.contains '.'

/-- The inbound frame as a parsed JSON dictionary, with the keys the
dispatcher reads modelled as optional fields.  `id = none` stands for an
absent or null id (the code's `item.setdefault('id', None)` plus the
`item.get('id') is not None` guards make the two indistinguishable).
The `result` field keeps presence distinct from value because the
dispatcher tests `'result' in item`.  Non-string `method` values and
non-object `kwparams` values are outside the model. -/
structure Item where
  method : Option String
  id : Option JVal
  params : Option JVal
  kwparams : Option (List (String × JVal))
  result : Option JVal

/-- Python exceptions that the modelled code can raise. -/
inductive PyErr where
  | assertionError
  | keyError (k : String)
  | valueError (msg : String)
  | serverError (msg : String)
  | typeError (msg : String)
  | other (name msg : String)
  deriving DecidableEq

/-- The string `'%s: %s' % (etype.__name__, evalue)` returned by
`Connection._format_exception` (connection.py line 436). -/
def formatException : PyErr → String
  | .assertionError => "AssertionError: "
  | .keyError k => "KeyError: " ++ "'" ++ k ++ "'"
  | .valueError m => "ValueError: " ++ m
  | .serverError m => "ServerError: " ++ m
  | .typeError m => "TypeError: " ++ m
  | .other n m => n ++ ": " ++ m

/-- The behaviour of a resolved handler function at the call the dispatcher
makes.  `genFn` is a generator function (`inspect.isgeneratorfunction`),
carrying the values it yields and an optional exception it raises after
them; `callFn` is a plain callable with its outcome. -/
inductive FnImpl where
  | genFn (yields : List JVal) (failure : Option PyErr)
  | callFn (outcome : Except PyErr JVal)

/-- What `obj.get_method(name)` does: return a function or raise. -/
inductive GetMethodResult where
  | fn (impl : FnImpl)
  | raises (e : PyErr)

/-- A handler or hosted object, abstracted to the two capabilities the
connection uses: `get_method` resolution and the `_shutdown` hook (whose
only observable variation is whether it raises). -/
structure PyObj where
  getMethod : String → GetMethodResult
  shutdownFails : Bool

/-- Result of `Connection._find_method`: either the function object or the
diagnostic string built from the exception `get_method` raised. -/
inductive FindFn where
  | fn (impl : FnImpl)
  | errStr (s : String)

/-- `Connection._find_method` (connection.py lines 471-484): `ServerError`
becomes its own string, any other exception is formatted. -/
def find_method (obj : PyObj) (m : String) : FindFn :=
  match obj.getMethod m with
  | .fn impl => .fn impl
  | .raises (.serverError s) => .errStr s
  | .raises e => .errStr (formatException e)

/-- Observable side effects on collaborator objects. -/
inductive Event where
  | setResponse (handle : Nat) (item : Item)
  | shutdownCall (objname : String)

/-- The connection state the dispatcher touches: the root handler, the
hosted-objects table `_objects`, and the pending-requests map `_requests`
(request id to an opaque Request-handle tag). -/
structure ConnState where
  handler : PyObj
  objects : List (String × PyObj)
  requests : List (Int × Nat)

/-- A reply frame as built by `_send_response` / `_send_error`
(connection.py lines 596-604): result, error (none stands for null), id. -/
structure RespFrame where
  result : JVal
  error : Option String
  id : JVal

/-- `Connection._send_response` (lines 596-599); it reads only `item['id']`,
which is passed here directly.  With an absent/null id nothing is sent. -/
def send_response (idv : Option JVal) (resp : JVal) : List RespFrame :=
  match idv with
  | some i => [⟨resp, none, i⟩]
  | none => []

/-- `Connection._send_error` (lines 601-604). -/
def send_error (idv : Option JVal) (err : String) : List RespFrame :=
  match idv with
  | some i => [⟨JVal.null, some err, i⟩]
  | none => []

/-- The `dict((str(k), req_kwargs[k]) for k in req_kwargs)` rebuild guarded
by `if req_kwargs:` (connection.py lines 455-456); JSON keys are already
strings, so `str(k)` is the identity on them. -/
def dictRebuild (d : List (String × JVal)) : List (String × JVal) :=
  if d.isEmpty then d
  else d.map (fun p => (p.1, (dlookup d p.1).getD JVal.null))

/-- `Connection._extract_params` (lines 447-457), taking the two request
keys it decodes (the `method` key it merely copies out is left to the
caller): `params` defaults to `[]`; a dict `params` becomes the kwargs
with empty args; otherwise kwargs come from `kwparams` (default `{}`). -/
def extract_params (params : Option JVal)
    (kwparams : Option (List (String × JVal))) : JVal × List (String × JVal) :=
  match params.getD (JVal.arr []) with
  | .obj kw => (JVal.arr [], dictRebuild kw)
  | v => (v, dictRebuild (kwparams.getD []))

/-- Iterating `*args` at the call `fn(*args, **kw)`: an array unpacks to its
elements, a string to its characters, a dict to its keys; other values
raise `TypeError` (caught by the dispatcher's try block). -/
def unpackArgs : JVal → Except PyErr (List JVal)
  | .arr l => .ok l
  | .str s => .ok (s.data.map (fun c => JVal.str ⟨[c]⟩))
  | .obj kv => .ok (kv.map (fun p => JVal.str p.1))
  | _ => .error (.typeError "argument after * must be an iterable")

/-- The try block of the `method` branch (connection.py lines 619-632):
run the resolved function and send replies; generator functions send one
response per yield; error strings are sent when truthy; raised
`ServerError`s send their message, other exceptions their formatted text.
All exceptions here are caught, so only frames come out. -/
def run_fn (idv : Option JVal) (fnr : FindFn) (argsv : JVal) : List RespFrame :=
  match fnr with
  | .errStr s => if s = "" then [] else send_error idv s
  | .fn impl =>
    match unpackArgs argsv with
    | .error e => send_error idv (formatException e)
    | .ok _ =>
      match impl with
      | .genFn yields failure =>
          (yields.map (fun v => send_response idv v)).flatten ++
          (match failure with
           | none => []
           | some (.serverError m) => send_error idv m
           | some e => send_error idv (formatException e))
      | .callFn (.ok v) => send_response idv v
      | .callFn (.error (.serverError m)) => send_error idv m
      | .callFn (.error e) => send_error idv (formatException e)

/-- `Connection._dispatch_delete` (lines 438-445): call `_shutdown` inside a
try/except that logs and swallows any exception, then delete the table
entry.  The missing-key branch is unreachable from `_find_object`. -/
def dispatch_delete (objects : List (String × PyObj)) (objname : String) :
    List Event × List (String × PyObj) × Except PyErr Unit :=
  match dlookup objects objname with
  | some _ => ([Event.shutdownCall objname], derase objects objname, .ok ())
  | none => ([], objects, .error (.keyError objname))

/-- Result of `Connection._find_object`: the events and table updates of a
possible `__delete__`, and either an exception, `none` (the Python `None`
return of the delete branch), or the target object. -/
structure FindObjResult where
  events : List Event
  objects : List (String × PyObj)
  outcome : Except PyErr (Option PyObj)

/-- `Connection._find_object` (lines 459-469): a dotted name is split on
`"."` keeping the first two components; the first must be a hosted object
(else `ValueError("Invalid object identifier")` is raised); a second
component `__delete__` runs the delete path and returns `None`; otherwise
the hosted object is returned.  A dotless name returns the root handler.
Note the split result is local to this function: the caller keeps the full
dotted name. -/
def find_object (st : ConnState) (m : String) : FindObjResult :=
  if pyContainsDot m then
    let parts := pySplitDot m
    let objectname := parts.headD ""
    let meth := (parts.drop 1).headD ""
    if (dlookup st.objects objectname).isNone then
      ⟨[], st.objects, .error (.valueError "Invalid object identifier")⟩
    else if meth = "__delete__" then
      match dispatch_delete st.objects objectname with
      | (evs, objs2, .ok _) => ⟨evs, objs2, .ok none⟩
      | (evs, objs2, .error e) => ⟨evs, objs2, .error e⟩
    else
      ⟨[], st.objects, .ok (dlookup st.objects objectname)⟩
  else
    ⟨[], st.objects, .ok (some st.handler)⟩

/-- `item['id'] in self._requests` / `self._requests[item['id']]`
(lines 634-635): pending ids are the integers handed out by `get_id`, so
only an integer id can be found. -/
def pendingLookup (reqs : List (Int × Nat)) (idv : Option JVal) : Option Nat :=
  match idv with
  | some (.num n) => dlookup reqs n
  | _ => none

/-- Everything observable about one `dispatch_item_single` run: the reply
frames handed to `_send` in order, the collaborator events, the updated
hosted-objects table, and whether it returned (`none` for the bare
`return`, `some true` for `return True`) or raised. -/
structure DispatchResult where
  sent : List RespFrame
  events : List Event
  objects : List (String × PyObj)
  outcome : Except PyErr (Option Bool)

/-- `Connection.dispatch_item_single` (connection.py lines 606-639).
The `method` branch extracts params, resolves the object (a raised
`ValueError` propagates: the resolution happens before the try block),
returns early when `_find_object` returned `None`, then resolves and runs
the method — passing the full, still-dotted name to `get_method`.  The
`result` branch asserts the id is pending and calls `setresponse`.
Anything else is answered with an "Unknown format" error. -/
def dispatch_item_single (st : ConnState) (item : Item) : DispatchResult :=
  match item.method with
  | some m =>
      let ak := extract_params item.params item.kwparams
      let fo := find_object st m
      match fo.outcome with
      | .error e => ⟨[], fo.events, fo.objects, .error e⟩
      | .ok none => ⟨[], fo.events, fo.objects, .ok none⟩
      | .ok (some obj) =>
          let fnr := find_method obj m
          ⟨run_fn item.id fnr ak.1, fo.events, fo.objects, .ok (some true)⟩
  | none =>
    match item.result with
    | some _ =>
        match pendingLookup st.requests item.id with
        | some h => ⟨[], [Event.setResponse h item], st.objects, .ok (some true)⟩
        | none => ⟨[], [], st.objects, .error .assertionError⟩
    | none => ⟨send_error item.id "Unknown format", [], st.objects, .ok (some true)⟩

/-- How `read_and_dispatch` routes one parsed dictionary (lines 550-554):
a frame with a `result` key always goes inline to `dispatch_item_single`;
everything else follows the threaded policy. -/
inductive Route where
  | single
  | threadedPolicy
  deriving DecidableEq

/-- The classification on connection.py lines 551-554. -/
def classify_item (item : Item) : Route :=
  if item.result.isSome then .single else .threadedPolicy

/-- One inline dispatch as performed inside `read_and_dispatch`'s
try/except (lines 545-561): the effects of `dispatch_item_single` happen
either way; an exception is logged and turned into a `False` return. -/
def read_and_dispatch_single (st : ConnState) (item : Item) :
    DispatchResult × Bool :=
  let r := dispatch_item_single st item
  match r.outcome with
  | .ok _ => (r, true)
  | .error _ => (r, false)

/-- `Proxy.__getattr__` (proxies.py lines 57-59): the qualified method name
sent on the wire.  Python tests `if self._obj:`, so an empty object name is
falsy and leaves the name unqualified. -/
def proxy_getattr_name (obj : Option String) (name : String) : String :=
  match obj with
  | some o => if o = "" then name else o ++ "." ++ name
  | none => name

/-- The attribute the closure built by `Proxy.__getattr__` fetches on the
connection when invoked: `self._conn._proxy(...)` (proxies.py line 62). -/
def proxy_call_attr : String := "_proxy"

/-- Every attribute name a `Connection` instance has: the class attributes
and methods of `class Connection` plus the instance attributes assigned in
`Connection.__init__` (connection.py lines 152-903).  Note there is no
entry named like `proxy_call_attr`. -/
def connection_attr_names : List String :=
  [ "_maxtimeout", "_SOCKET_COMM_ERRORS", "call", "method", "notify", "pipe",
    "setmaxtimeout", "getmaxtimeout", "__init__", "socket", "get_id",
    "load_object", "addrequest", "delrequest", "dump_object",
    "_dump_functionreference", "_dump_objectreference", "_dump_remoteobject",
    "_format_exception", "_dispatch_delete", "_extract_params",
    "_find_object", "_find_method", "dispatch_until_empty",
    "read_and_dispatch", "dispatch_item_threaded", "_send", "_send_response",
    "_send_error", "dispatch_item_single", "proxy", "close", "write_line",
    "read_line", "settimeout", "write_thread", "write", "write_now", "read",
    "_readn", "serve",
    "_debug_socket", "_debug_dispatch", "_buffer", "_sck", "_address",
    "_handler", "connection_status", "handler", "_id", "_requests",
    "_objects", "scklock", "_wbuffer", "write_lock", "read_lock",
    "getid_lock", "reading_event", "threaded", "write_thread_queue",
    "write_thread_semaphore" ]

/-- The param-encoding steps of `Connection.proxy` (lines 659-666):
non-empty args go in `params`; non-empty kwargs go in `params` when args
are empty, else in `kwparams`. -/
def encode_params (args : List JVal) (kwargs : List (String × JVal)) :
    Option JVal × Option (List (String × JVal)) :=
  let params0 : Option JVal :=
    if args.length > 0 then some (JVal.arr args) else none
  if kwargs.length > 0 then
    if args.length = 0 then (some (JVal.obj kwargs), none)
    else (params0, some kwargs)
  else (params0, none)

/-- The outbound call frame `data` built by `Connection.proxy`. -/
structure OutFrame where
  method : String
  id : Option Nat
  params : Option JVal
  kwparams : Option (List (String × JVal))

/-- `Connection.proxy` (lines 641-677), up to the point where `data` is
complete: sync types 0, 1 and 3 draw a fresh id from the preincrementing
counter (`get_id`); notifications (type 2) carry none.  Returns the frame
and the updated id counter. -/
def connection_proxy_data (syncType : Nat) (name : String) (idCounter : Nat)
    (args : List JVal) (kwargs : List (String × JVal)) : OutFrame × Nat :=
  let withId := syncType = 0 ∨ syncType = 1 ∨ syncType = 3
  let ctr2 := if withId then idCounter + 1 else idCounter
  let idv : Option Nat := if withId then some (idCounter + 1) else none
  let pk := encode_params args kwargs
  (⟨name, idv, pk.1, pk.2⟩, ctr2)

/-- ASCII lowering of one character; models `str.lower` on the ASCII class
names the code generates synthetic object names from. -/
def pyLowerChar (c : Char) : Char :=
  if c.toNat ≥ 65 ∧ c.toNat ≤ 90 then Char.ofNat (c.toNat + 32) else c

/-- `classname.lower()` (connection.py line 409). -/
def pyLower (s : String) : String := ⟨s.data.map pyLowerChar⟩

/-- Python `"%04x" % n`: lowercase hex, zero-padded to at least 4 digits. -/
def hex4 (n : Nat) : String :=
  let ds := Nat.toDigits 16 n
  ⟨List.replicate (4 - ds.length) '0' ++ ds⟩

/-- A user object as `_dump_remoteobject` sees it: an identity tag (the
hosted-objects table stores the object itself), its class name, and its
`__remoteobjects__` attribute mapping connections (by id) to the synthetic
name already assigned; a missing attribute is the empty map. -/
structure UserObj where
  tag : Nat
  className : String
  remoteObjects : List (Nat × String)
  deriving DecidableEq

/-- What `Connection._dump_remoteobject` leaves behind: the synthetic name
it put in the `__remoteobject__` hint, the connection's id counter, its
`_objects` table (object values by tag) and the mutated user object. -/
structure RemoteDumpResult where
  name : String
  idCounter : Nat
  objects : List (String × Nat)
  obj : UserObj
  deriving DecidableEq

/-- `Connection._dump_remoteobject` (connection.py lines 392-412): if this
connection already named the object, reuse that name and change nothing;
otherwise build `"<classname.lower()>_<%04x get_id()>"`, register the
object in `_objects` and remember the name in `obj.__remoteobjects__`. -/
def dump_remoteobject (selfConn : Nat) (idCounter : Nat)
    (objects : List (String × Nat)) (obj : UserObj) : RemoteDumpResult :=
  match dlookup obj.remoteObjects selfConn with
  | some nm => ⟨nm, idCounter, objects, obj⟩
  | none =>
      let ctr2 := idCounter + 1
      let nm := pyLower obj.className ++ "_" ++ hex4 ctr2
      ⟨nm, ctr2, dinsert objects nm obj.tag,
        { obj with remoteObjects := dinsert obj.remoteObjects selfConn nm }⟩

/-- A value handed to the encode hook `Connection.dump_object`, restricted
to the branches the claims exercise: a function or bound method (with its
`__name__` and optional `_conn` attribute), a remote stub, an object with
`get_method`, or anything else.  The Decimal branch is out of scope. -/
inductive SerObj where
  | pyFn (name : String) (connAttr : Option Nat)
  | remoteStub (name : String)
  | hostedCapable (obj : UserObj)
  | plainOther

/-- Result of one `dump_object` call on connection `selfConn`. -/
structure DumpResult where
  out : Except PyErr JVal
  idCounter : Nat
  objects : List (String × Nat)

/-- `Connection.dump_object` (connection.py lines 341-382): a function or
method whose `_conn` attribute (default `None`) differs from this
connection raises `TypeError` locally, otherwise it becomes a
`__functionreference__` hint carrying `obj.__name__`; a remote stub
becomes an `__objectreference__` hint; an object exposing `get_method`
goes through `_dump_remoteobject`; anything else raises `TypeError`. -/
def dump_object (selfConn : Nat) (idCounter : Nat)
    (objects : List (String × Nat)) (o : SerObj) : DumpResult :=
  match o with
  | .pyFn name connAttr =>
      if connAttr = some selfConn then
        ⟨.ok (.obj [("__functionreference__", .str name)]), idCounter, objects⟩
      else
        ⟨.error (.typeError
          "Tried to serialize as JSON a handler for another connection!"),
         idCounter, objects⟩
  | .remoteStub name =>
      ⟨.ok (.obj [("__objectreference__", .str name)]), idCounter, objects⟩
  | .hostedCapable obj =>
      let r := dump_remoteobject selfConn idCounter objects obj
      ⟨.ok (.obj [("__remoteobject__", .str r.name)]), r.idCounter, r.objects⟩
  | .plainOther =>
      ⟨.error (.typeError
        "Python object laks a 'get_method' and is not serializable!"),
       idCounter, objects⟩

/-! Supporting lemmas. -/

theorem dlookup_of_mem {κ α : Type} [DecidableEq κ] (d : List (κ × α))
    (k : κ) (v : α) (hm : (k, v) ∈ d) (hn : (d.map Prod.fst).Nodup) :
    dlookup d k = some v := by
  induction d with
  | nil => cases hm
  | cons hd t ih =>
      obtain ⟨k1, v1⟩ := hd
      rcases List.mem_cons.mp hm with h | h
      · obtain ⟨hk, hv⟩ := Prod.mk.injEq .. ▸ h.symm
        simp [dlookup, hk.symm, hv.symm]
      · have hk1 : k1 ≠ k := by
          intro hkk
          subst hkk
          exact (List.nodup_cons.mp (by simpa using hn)).1
            (List.mem_map_of_mem Prod.fst h)
        simp only [dlookup, if_neg hk1]
        exact ih h (List.nodup_cons.mp (by simpa using hn)).2

theorem dictRebuild_nodup (d : List (String × JVal))
    (hn : (d.map Prod.fst).Nodup) : dictRebuild d = d := by
  unfold dictRebuild
  split
  · rfl
  · have hmm : ∀ p ∈ d, (p.1, (dlookup d p.1).getD JVal.null) = p := by
      intro p hp
      have := dlookup_of_mem d p.1 p.2 hp hn
      simp [this]
    calc d.map (fun p => (p.1, (dlookup d p.1).getD JVal.null))
        = d.map id := List.map_congr_left hmm
      _ = d := List.map_id d

theorem flatten_singletons {α β : Type} (f : α → β) (l : List α) :
    (l.map (fun a => [f a])).flatten = l.map f := by
  induction l with
  | nil => rfl
  | cons x xs ih => simp [ih]

theorem run_fn_none (fnr : FindFn) (argsv : JVal) :
    run_fn none fnr argsv = [] := by
  cases fnr with
  | errStr s => simp [run_fn, send_error]
  | fn impl =>
      unfold run_fn
      cases h : unpackArgs argsv with
      | error e => simp [send_error]
      | ok l =>
          cases impl with
          | genFn yields failure =>
              cases failure with
              | none => simp [send_response, send_error]
              | some e => cases e <;> simp [send_response, send_error]
          | callFn outcome =>
              cases outcome with
              | ok v => simp [send_response]
              | error e => cases e <;> simp [send_error]

theorem find_object_no_setResponse (st : ConnState) (m : String)
    (h : Nat) (itm : Item) :
    Event.setResponse h itm ∉ (find_object st m).events := by
  unfold find_object
  dsimp only
  split
  · split
    · simp
    · split
      · unfold dispatch_delete
        cases hl : dlookup st.objects ((pySplitDot m).headD "") with
        | none => simp [hl]
        | some o => simp [hl]
      · simp
  · simp

/-! Claim theorems. -/

/-- Claim C4: encoding a call per the proxy rules (non-empty args go in
params with kwargs in kwparams; empty args with non-empty kwargs puts
kwargs in params; both empty omits both keys) and decoding with the
dispatcher's symmetric rules recovers exactly the original args and
kwargs, for kwargs with distinct keys as any Python dict has. -/
theorem C4_params_roundtrip (args : List JVal) (kwargs : List (String × JVal))
    (hk : (kwargs.map Prod.fst).Nodup) :
    extract_params (encode_params args kwargs).1 (encode_params args kwargs).2
      = (JVal.arr args, kwargs) := by
  have hd := dictRebuild_nodup kwargs hk
  cases args with
  | nil =>
      cases kwargs with
      | nil => rfl
      | cons p kt => simp [encode_params, extract_params, hd]
  | cons a t =>
      cases kwargs with
      | nil => simp [encode_params, extract_params, dictRebuild]
      | cons p kt => simp [encode_params, extract_params, hd]

/-- Witness for C4 at args `[1]`, kwargs `a=2`. -/
theorem C4_params_roundtrip_witness :
    (([("a", JVal.num 2)].map Prod.fst).Nodup) ∧
    extract_params (encode_params [JVal.num 1] [("a", JVal.num 2)]).1
        (encode_params [JVal.num 1] [("a", JVal.num 2)]).2
      = (JVal.arr [JVal.num 1], [("a", JVal.num 2)]) :=
  ⟨by simp, C4_params_roundtrip [JVal.num 1] [("a", JVal.num 2)] (by simp)⟩

/-- Claim C5: an inbound request carrying an id whose resolved handler
method is a generator yielding N values makes the dispatcher send exactly
N response frames, all sharing the incoming request id, in yield order
(and touch nothing else). -/
theorem C5_generator_multiplicity (st : ConnState) (item : Item)
    (m : String) (i : JVal) (yields args0 : List JVal)
    (hm : item.method = some m)
    (hdot : pyContainsDot m = false)
    (hid : item.id = some i)
    (hfn : st.handler.getMethod m = .fn (.genFn yields none))
    (hargs : unpackArgs (extract_params item.params item.kwparams).1
      = .ok args0) :
    dispatch_item_single st item =
      ⟨yields.map (fun v => ⟨v, none, i⟩), [], st.objects, .ok (some true)⟩ := by
  unfold dispatch_item_single
  simp only [hm, find_object, hdot, Bool.false_eq_true, if_false]
  unfold find_method
  simp only [hfn]
  unfold run_fn
  simp only [hid, hargs, send_response]
  simp [flatten_singletons]

/-- Witness for C5: a generator yielding 1, 2, 3 answered with three frames
that share id 7, in order. -/
theorem C5_generator_multiplicity_witness :
    pyContainsDot "count" = false ∧
    dispatch_item_single
        ⟨⟨fun mth => if mth = "count"
            then .fn (.genFn [JVal.num 1, JVal.num 2, JVal.num 3] none)
            else .raises .assertionError, false⟩, [], []⟩
        ⟨some "count", some (JVal.num 7), some (JVal.arr [JVal.num 3]),
          none, none⟩ =
      ⟨[⟨JVal.num 1, none, JVal.num 7⟩, ⟨JVal.num 2, none, JVal.num 7⟩,
        ⟨JVal.num 3, none, JVal.num 7⟩], [], [], .ok (some true)⟩ :=
  ⟨rfl, C5_generator_multiplicity _ _ "count" (JVal.num 7)
    [JVal.num 1, JVal.num 2, JVal.num 3] [JVal.num 3] rfl rfl rfl rfl rfl⟩

/-- Claim C6: an inbound request frame without an id (a notification)
produces no reply frame, whatever the handler or resolution does; and
for a dotless method name the dispatcher even returns normally, all
errors having been swallowed. -/
theorem C6_notification_silence (st : ConnState) (item : Item) (m : String)
    (hm : item.method = some m) (hid : item.id = none) :
    (dispatch_item_single st item).sent = [] ∧
    (pyContainsDot m = false →
      dispatch_item_single st item = ⟨[], [], st.objects, .ok (some true)⟩) := by
  constructor
  · unfold dispatch_item_single
    simp only [hm]
    split
    · rfl
    · rfl
    · simp [hid, run_fn_none]
  · intro hdot
    unfold dispatch_item_single
    simp only [hm, find_object, hdot, Bool.false_eq_true, if_false]
    simp [hid, run_fn_none]

/-- Witness for C6: a handler that raises, called as a notification,
produces no frames and the dispatcher returns normally. -/
theorem C6_notification_silence_witness :
    (⟨some "boom", none, none, none, none⟩ : Item).id = none ∧
    dispatch_item_single
        ⟨⟨fun _ => .fn (.callFn (.error (.other "RuntimeError" "x"))),
          false⟩, [], []⟩
        ⟨some "boom", none, none, none, none⟩ =
      ⟨[], [], [], .ok (some true)⟩ :=
  ⟨rfl, (C6_notification_silence _ _ "boom" rfl rfl).2 rfl⟩

/-- Claim C7: an inbound `name.__delete__` call on a hosted object calls
the object's shutdown hook and removes the table entry whatever that hook
does (the `obj` below is arbitrary, raising hooks included), and sends no
reply even when the frame carries an id. -/
theorem C7_delete_semantics (st : ConnState) (item : Item)
    (m objname : String) (rest : List String) (obj : PyObj)
    (hm : item.method = some m)
    (hdot : pyContainsDot m = true)
    (hsplit : pySplitDot m = objname :: "__delete__" :: rest)
    (hobj : dlookup st.objects objname = some obj) :
    dispatch_item_single st item =
      ⟨[], [.shutdownCall objname], derase st.objects objname, .ok none⟩ := by
  unfold dispatch_item_single
  simp only [hm]
  simp [find_object, hdot, hsplit, dispatch_delete, hobj]

/-- Witness for C7: deleting hosted object `counter` whose shutdown hook
raises, with id 99 present, removes the entry and sends nothing. -/
theorem C7_delete_semantics_witness :
    pySplitDot "counter.__delete__" = ["counter", "__delete__"] ∧
    dispatch_item_single
        ⟨⟨fun _ => .raises .assertionError, false⟩,
          [("counter", ⟨fun _ => .raises .assertionError, true⟩)], []⟩
        ⟨some "counter.__delete__", some (JVal.num 99), none, none, none⟩ =
      ⟨[], [.shutdownCall "counter"], [], .ok none⟩ :=
  ⟨rfl,
    (C7_delete_semantics
      ⟨⟨fun _ => .raises .assertionError, false⟩,
        [("counter", ⟨fun _ => .raises .assertionError, true⟩)], []⟩
      ⟨some "counter.__delete__", some (JVal.num 99), none, none, none⟩
      "counter.__delete__" "counter" []
      ⟨fun _ => .raises .assertionError, true⟩ rfl rfl rfl rfl).trans rfl⟩

/-- Counterexample to claim C2 as stated: on a response frame whose id is
not pending, the dispatcher does not drop the frame silently — the
`assert` raises `AssertionError` out of `dispatch_item_single`. -/
theorem C2_counterexample :
    (dispatch_item_single ⟨⟨fun _ => .raises .assertionError, false⟩, [], []⟩
        ⟨none, some (JVal.num 5), none, none, some (JVal.num 7)⟩).outcome =
      .error .assertionError := rfl

/-- Claim C2 (amended): on a response frame the dispatcher looks the id up
in the pending map and calls `setresponse` on the matching handle; a
missing id makes the `assert` raise `AssertionError` (with no frame sent
and no state change), which the read loop catches and logs, reporting
failure. -/
theorem C2_response_dispatch (st : ConnState) (item : Item) (v : JVal)
    (hm : item.method = none) (hres : item.result = some v) :
    (∀ h, pendingLookup st.requests item.id = some h →
      dispatch_item_single st item =
        ⟨[], [.setResponse h item], st.objects, .ok (some true)⟩) ∧
    (pendingLookup st.requests item.id = none →
      dispatch_item_single st item =
        ⟨[], [], st.objects, .error .assertionError⟩ ∧
      (read_and_dispatch_single st item).2 = false) := by
  constructor
  · intro h hl
    unfold dispatch_item_single
    simp [hm, hres, hl]
  · intro hl
    have h1 : dispatch_item_single st item =
        ⟨[], [], st.objects, .error .assertionError⟩ := by
      unfold dispatch_item_single
      simp [hm, hres, hl]
    exact ⟨h1, by simp [read_and_dispatch_single, h1]⟩

/-- Witness for C2 (amended): a pending id 5 on handle 77 is resolved by
`setresponse`; state otherwise untouched. -/
theorem C2_response_dispatch_witness :
    pendingLookup [((5 : Int), 77)] (some (JVal.num 5)) = some 77 ∧
    dispatch_item_single
        ⟨⟨fun _ => .raises .assertionError, false⟩, [], [(5, 77)]⟩
        ⟨none, some (JVal.num 5), none, none, some (JVal.num 1)⟩ =
      ⟨[], [.setResponse 77 ⟨none, some (JVal.num 5), none, none,
          some (JVal.num 1)⟩], [], .ok (some true)⟩ :=
  ⟨rfl,
    (C2_response_dispatch
      ⟨⟨fun _ => .raises .assertionError, false⟩, [], [(5, 77)]⟩
      ⟨none, some (JVal.num 5), none, none, some (JVal.num 1)⟩
      (JVal.num 1) rfl rfl).1 77 rfl⟩

/-- Counterexample to claim C3 as stated: a request for an unknown hosted
object yields no error reply at all (the `ValueError` escapes the
dispatcher instead), and a name with two dots is not split once — the
third component is discarded, so `obj.__delete__.x` still runs the delete
path. -/
theorem C3_counterexample :
    (dispatch_item_single ⟨⟨fun _ => .raises .assertionError, false⟩, [], []⟩
        ⟨some "ghost.run", some (JVal.num 1), none, none, none⟩).sent = [] ∧
    (dispatch_item_single ⟨⟨fun _ => .raises .assertionError, false⟩, [], []⟩
        ⟨some "ghost.run", some (JVal.num 1), none, none, none⟩).outcome =
      .error (.valueError "Invalid object identifier") ∧
    (dispatch_item_single
        ⟨⟨fun _ => .raises .assertionError, false⟩,
          [("obj", ⟨fun _ => .raises .assertionError, false⟩)], []⟩
        ⟨some "obj.__delete__.x", some (JVal.num 1), none, none,
          none⟩).objects = [] :=
  ⟨rfl, rfl, rfl⟩

/-- Claim C3 (amended): a dotted method name is split on dots keeping only
the first two components; when the first does not name a hosted object the
dispatcher raises `ValueError("Invalid object identifier")` without
sending any reply or changing state, and the read loop catches the
exception (logging it) and reports failure, so the reader continues. -/
theorem C3_invalid_object (st : ConnState) (item : Item)
    (m objname : String) (rest : List String)
    (hm : item.method = some m)
    (hdot : pyContainsDot m = true)
    (hsplit : pySplitDot m = objname :: rest)
    (hobj : dlookup st.objects objname = none) :
    dispatch_item_single st item =
      ⟨[], [], st.objects, .error (.valueError "Invalid object identifier")⟩ ∧
    (read_and_dispatch_single st item).2 = false := by
  have h1 : dispatch_item_single st item =
      ⟨[], [], st.objects,
        .error (.valueError "Invalid object identifier")⟩ := by
    unfold dispatch_item_single
    simp only [hm]
    simp [find_object, hdot, hsplit, hobj]
  exact ⟨h1, by simp [read_and_dispatch_single, h1]⟩

/-- Witness for C3 (amended) at method `ghost.run` with an empty table. -/
theorem C3_invalid_object_witness :
    pySplitDot "ghost.run" = ["ghost", "run"] ∧
    (dispatch_item_single ⟨⟨fun _ => .raises .assertionError, false⟩, [], []⟩
        ⟨some "ghost.run", some (JVal.num 1), none, none, none⟩ =
      ⟨[], [], [], .error (.valueError "Invalid object identifier")⟩ ∧
    (read_and_dispatch_single
        ⟨⟨fun _ => .raises .assertionError, false⟩, [], []⟩
        ⟨some "ghost.run", some (JVal.num 1), none, none, none⟩).2 = false) :=
  ⟨rfl,
    C3_invalid_object ⟨⟨fun _ => .raises .assertionError, false⟩, [], []⟩
      ⟨some "ghost.run", some (JVal.num 1), none, none, none⟩
      "ghost.run" "ghost" ["run"] rfl rfl rfl rfl⟩

/-- Claim C8: `dump_object` encodes a callable bound to this connection as
a single-key `__functionreference__` hint carrying its name, and raises a
local `TypeError` — leaving all connection state untouched, so nothing
ever reaches the wire — for a callable bound to a different connection. -/
theorem C8_functionreference (selfConn other ctr : Nat)
    (objects : List (String × Nat)) (name : String)
    (hne : other ≠ selfConn) :
    dump_object selfConn ctr objects (.pyFn name (some selfConn)) =
      ⟨.ok (.obj [("__functionreference__", .str name)]), ctr, objects⟩ ∧
    dump_object selfConn ctr objects (.pyFn name (some other)) =
      ⟨.error (.typeError
        "Tried to serialize as JSON a handler for another connection!"),
        ctr, objects⟩ := by
  constructor
  · simp [dump_object]
  · simp [dump_object, hne]

/-- Witness for C8 on connections 3 and 4. -/
theorem C8_functionreference_witness :
    (4 : Nat) ≠ 3 ∧
    (dump_object 3 0 [] (.pyFn "echo" (some 3)) =
      ⟨.ok (.obj [("__functionreference__", .str "echo")]), 0, []⟩ ∧
    dump_object 3 0 [] (.pyFn "echo" (some 4)) =
      ⟨.error (.typeError
        "Tried to serialize as JSON a handler for another connection!"),
        0, []⟩) :=
  ⟨by decide, C8_functionreference 3 4 0 [] "echo" (by decide)⟩

/-- Claim C9: serializing the same user object twice on one connection
gives the same synthetic `__remoteobject__` name and leaves the table with
the single entry the first serialization registered, while distinct
connections can assign different names to the same object. -/
theorem C9_hosted_idempotence (selfConn ctr : Nat)
    (objects : List (String × Nat)) (obj : UserObj) :
    (dump_remoteobject selfConn
        (dump_remoteobject selfConn ctr objects obj).idCounter
        (dump_remoteobject selfConn ctr objects obj).objects
        (dump_remoteobject selfConn ctr objects obj).obj
      = dump_remoteobject selfConn ctr objects obj) ∧
    (dlookup obj.remoteObjects selfConn = none →
      (dump_remoteobject selfConn ctr objects obj).objects =
        dinsert objects (dump_remoteobject selfConn ctr objects obj).name
          obj.tag) ∧
    (dump_remoteobject 1 0 [] ⟨0, "Foo", []⟩).name ≠
      (dump_remoteobject 2 5 [] ⟨0, "Foo", []⟩).name := by
  refine ⟨?_, ?_, by decide⟩
  · cases h : dlookup obj.remoteObjects selfConn with
    | some nm => simp [dump_remoteobject, h]
    | none => simp [dump_remoteobject, h, dlookup_dinsert_self]
  · intro h
    simp [dump_remoteobject, h]

/-- Witness for C9: a fresh object on connection 1 registers once under
`foo_0001` and a second dump changes nothing. -/
theorem C9_hosted_idempotence_witness :
    dlookup (⟨0, "Foo", []⟩ : UserObj).remoteObjects 1 = none ∧
    (dump_remoteobject 1 0 [] ⟨0, "Foo", []⟩).objects =
      dinsert [] (dump_remoteobject 1 0 [] ⟨0, "Foo", []⟩).name
        (⟨0, "Foo", []⟩ : UserObj).tag :=
  ⟨rfl, (C9_hosted_idempotence 1 0 [] ⟨0, "Foo", []⟩).2.1 rfl⟩

/-- Claim C10: a frame carrying both a `method` and a `result` key is
processed exactly as the same frame without its `result` key — the method
branch takes precedence, no `setresponse` ever fires — even though the
read loop's classification routes any frame with a `result` key to inline
dispatch. -/
theorem C10_method_precedence (st : ConnState) (item : Item) (m : String)
    (hm : item.method = some m) (hres : item.result.isSome) :
    dispatch_item_single st item =
      dispatch_item_single st
        ⟨item.method, item.id, item.params, item.kwparams, none⟩ ∧
    (∀ h itm, Event.setResponse h itm ∉ (dispatch_item_single st item).events) ∧
    classify_item item = Route.single := by
  obtain ⟨mv, idv, pv, kv, rv⟩ := item
  simp only [Item.method] at hm
  subst hm
  refine ⟨rfl, ?_, ?_⟩
  · intro h itm
    unfold dispatch_item_single
    dsimp only
    split
    · exact find_object_no_setResponse st m h itm
    · exact find_object_no_setResponse st m h itm
    · exact find_object_no_setResponse st m h itm
  · simp only [Item.result] at hres
    simp [classify_item, hres]

/-- Witness for C10: a frame with both keys classifies as inline single
dispatch. -/
theorem C10_method_precedence_witness :
    (⟨some "echo", some (JVal.num 1), none, none, some JVal.null⟩ :
        Item).result.isSome = true ∧
    classify_item ⟨some "echo", some (JVal.num 1), none, none,
        some JVal.null⟩ = Route.single :=
  ⟨rfl,
    (C10_method_precedence
      ⟨⟨fun _ => .raises .assertionError, false⟩, [], []⟩
      ⟨some "echo", some (JVal.num 1), none, none, some JVal.null⟩
      "echo" rfl rfl).2.2⟩

/-- Claim C1, settled as a code bug: the closure built by
`Proxy.__getattr__` invokes the attribute named by `proxy_call_attr` on
the connection, but no `Connection` attribute has that name (the frame
builder is installed as `proxy`), so invoking the callable raises
`AttributeError` instead of emitting the claimed frame.  The last two
conjuncts record the frame `Connection.proxy` itself would build — the
claimed shape — for a connection-level notification and for an
object-bound synchronous call. -/
theorem C1_proxy_attr_mismatch :
    proxy_call_attr ∉ connection_attr_names ∧
    "proxy" ∈ connection_attr_names ∧
    (connection_proxy_data 2 (proxy_getattr_name none "echo") 0
        [JVal.num 1] []).1 =
      ⟨"echo", none, some (JVal.arr [JVal.num 1]), none⟩ ∧
    (connection_proxy_data 0 (proxy_getattr_name (some "obj") "echo") 0
        [] [("a", JVal.num 2)]).1 =
      ⟨"obj.echo", some 1, some (JVal.obj [("a", JVal.num 2)]), none⟩ :=
  ⟨by decide, by decide, rfl, rfl⟩

end BJsonRpc
